import Mathlib

/-!
Shallow embedding of the grandqc output-analysis watcher
(src/output-analysis/watchdog-script.py) and mask analyzer
(src/output-analysis/artifact-analyzer.py), with theorems checking the
specification's claims about them.

The watcher's effectful parts are modelled by explicit injection:
os.path.getsize readings become a list of Option Nat (none is an OSError),
and the two stage subprocesses become injected exit codes.  The handler
itself becomes a pure function from state, environment and event to the
new state, a trace of the externally visible actions it took (in order),
and an outcome tag mirroring which return path of on_created was taken.
-/

namespace GrandQC

/-! ## Stability wait (the while-True size-polling loop of on_created) -/

/-- Result tag for the size-polling loop: the loop broke out having seen a
size equal to the previous one (stable), os.path.getsize raised OSError
(unavailable), or the injected reading sequence ran out while the Python
loop would have kept polling (exhausted, a model artifact). -/
inductive WaitOutcome
  | stable (size : Nat)
  | unavailable
  | exhausted
deriving DecidableEq, Repr

/-- The polling loop of on_created, lines 42-52:
file_size starts at -1; each iteration reads the current size, breaks when
it equals the previous reading, otherwise stores it and polls again; an
OSError aborts.  Returns the outcome, the readings consumed in order, and
the readings left uninspected. -/
def waitLoop (file_size : Int) :
    List (Option Nat) → WaitOutcome × List (Option Nat) × List (Option Nat)
  | [] => (.exhausted, [], [])
  | none :: rs => (.unavailable, [none], rs)
  | some current :: rs =>
      if (current : Int) = file_size then
        (.stable current, [some current], rs)
      else
        let r := waitLoop (current : Int) rs
        (r.1, some current :: r.2.1, r.2.2)

/-- The stability wait as entered by on_created: file_size = -1. -/
def awaitStable (readings : List (Option Nat)) :
    WaitOutcome × List (Option Nat) × List (Option Nat) :=
  waitLoop (-1) readings

/-! ## The event handler SVSHandler.on_created -/

/-- Paths are modelled as lists of characters so that the case-insensitive
extension check computes by kernel reduction. -/
abbrev Path := List Char

/-- Python str.lower: lowercase every character. -/
def pyLower (s : Path) : Path := s.map Char.toLower

/-- Python str.endswith(t): s is at least as long as t and its last
len(t) characters equal t. -/
def pyEndsWith (s t : Path) : Bool :=
  t.length ≤ s.length && s.drop (s.length - t.length) == t

/-- A filesystem event as delivered by watchdog to on_created. -/
structure FsEvent where
  is_directory : Bool
  src_path : Path
deriving DecidableEq, Repr

/-- The mutable state of SVSHandler: the processed_files set, modelled as a
list of paths (membership is what the code uses). -/
structure HandlerState where
  processed_files : List Path
deriving DecidableEq, Repr

/-- Injected effects for one on_created call: the sizes os.path.getsize
would return poll by poll (none = OSError), and the exit codes the two
stage subprocesses would exit with. -/
structure EventEnv where
  readings : List (Option Nat)
  stage1_exit : Nat
  stage2_exit : Nat
deriving DecidableEq, Repr

/-- One logger call made by on_created, by message. -/
inductive LogMsg
  | alreadySkipping
  | newFileDetected
  | errorAccessing
  | runningTissue
  | runningArtifact
  | successfullyProcessed
  | errorProcessing
deriving DecidableEq, Repr

/-- An externally visible action of on_created, recorded in execution
order: the extension check ran, the processed_files membership check ran,
one size poll returned r, a stage subprocess ran and exited with the given
code, or the path was added to processed_files. -/
inductive Step
  | extCheck
  | dedupeCheck
  | sizeRead (r : Option Nat)
  | stage1Run (code : Nat)
  | stage2Run (code : Nat)
  | addProcessed
deriving DecidableEq, Repr

/-- Which return path of on_created was taken. -/
inductive Outcome
  | directoryEvent
  | wrongExtension
  | alreadyProcessed
  | waitExhausted
  | fileUnavailable
  | stage1Failed
  | stage2Failed
  | completed
deriving DecidableEq, Repr

/-- The ordered actions and logger calls of one on_created call. -/
structure RunTrace where
  steps : List Step
  logs : List LogMsg
deriving DecidableEq, Repr

/-- Number of stage-1 subprocess invocations recorded in a trace. -/
def RunTrace.stage1_invocations (t : RunTrace) : Nat :=
  t.steps.countP fun s => match s with | .stage1Run _ => true | _ => false

/-- Number of stage-2 subprocess invocations recorded in a trace. -/
def RunTrace.stage2_invocations (t : RunTrace) : Nat :=
  t.steps.countP fun s => match s with | .stage2Run _ => true | _ => false

/-- SVSHandler.on_created, lines 26-80 of watchdog-script.py, as a pure
function.  Control flow mirrors the source line by line: directory events
return at once; non-.svs paths (case-insensitive) return with no log; a
path already in processed_files logs a skip and returns; then the size
polling loop runs (an OSError logs an error and returns); then stage 1
runs (python wsi_tis_detect.py, check=True) and a non-zero exit raises
CalledProcessError, caught by the except which logs and returns; then
stage 2 (python main.py) the same way; only when both exited zero is the
path added to processed_files. -/
def on_created (st : HandlerState) (env : EventEnv) (event : FsEvent) :
    HandlerState × RunTrace × Outcome :=
  if event.is_directory then
    (st, ⟨[], []⟩, .directoryEvent)
  else if ¬ (pyEndsWith (pyLower event.src_path) ".svs".data) then
    (st, ⟨[.extCheck], []⟩, .wrongExtension)
  else if event.src_path ∈ st.processed_files then
    (st, ⟨[.extCheck, .dedupeCheck], [.alreadySkipping]⟩, .alreadyProcessed)
  else
    match awaitStable env.readings with
    | (.exhausted, consumed, _) =>
        (st, ⟨[.extCheck, .dedupeCheck] ++ consumed.map .sizeRead,
              [.newFileDetected]⟩, .waitExhausted)
    | (.unavailable, consumed, _) =>
        (st, ⟨[.extCheck, .dedupeCheck] ++ consumed.map .sizeRead,
              [.newFileDetected, .errorAccessing]⟩, .fileUnavailable)
    | (.stable _, consumed, _) =>
        let base := [Step.extCheck, Step.dedupeCheck] ++ consumed.map Step.sizeRead
        if env.stage1_exit ≠ 0 then
          (st, ⟨base ++ [.stage1Run env.stage1_exit],
                [.newFileDetected, .runningTissue, .errorProcessing]⟩, .stage1Failed)
        else if env.stage2_exit ≠ 0 then
          (st, ⟨base ++ [.stage1Run 0, .stage2Run env.stage2_exit],
                [.newFileDetected, .runningTissue, .runningArtifact,
                 .errorProcessing]⟩, .stage2Failed)
        else
          (⟨event.src_path :: st.processed_files⟩,
           ⟨base ++ [.stage1Run 0, .stage2Run 0, .addProcessed],
            [.newFileDetected, .runningTissue, .runningArtifact,
             .successfullyProcessed]⟩, .completed)

/-- A sequence of on_created calls folded over the handler state: the
lifetime of the watcher process as seen by one handler. -/
def runEvents (st : HandlerState) : List (EventEnv × FsEvent) → HandlerState
  | [] => st
  | (env, e) :: rest => runEvents (on_created st env e).1 rest

/-! ## GrandQCAnalyzer.analyze_mask (artifact-analyzer.py, lines 25-51) -/

/-- The non-background class indices iterated by analyze_mask: the keys of
artifact_classes with 7 (Background) skipped. -/
def artifact_class_indices : List Nat := [1, 2, 3, 4, 5, 6]

/-- np.sum(mask != 7): number of non-background pixels. -/
def total_tissue_pixels (mask : List Nat) : Nat :=
  (mask.filter fun p => p != 7).length

/-- np.sum(mask == class_idx): number of pixels of one class. -/
def countClass (mask : List Nat) (c : Nat) : Nat := mask.count c

/-- Python round(x, 2) over exact rationals.  (The source computes in
float64 and Python round ties to even; no claim exercises a tie or a value
float64 distorts at 2 decimals.) -/
def round2 (q : ℚ) : ℚ := (round (q * 100) : ℚ) / 100

/-- GrandQCAnalyzer.analyze_mask on the pixel array of one mask: if there
are no non-background pixels, every class reports 0.0; otherwise each class
c in 1..6 reports round(count(mask == c) / total_tissue_pixels * 100, 2).
Returned as an association list from class index to percentage, in the
iteration order of the source. -/
def analyze_mask (mask : List Nat) : List (Nat × ℚ) :=
  if total_tissue_pixels mask = 0 then
    artifact_class_indices.map fun i => (i, 0)
  else
    artifact_class_indices.map fun c =>
      (c, round2 ((countClass mask c : ℚ) / (total_tissue_pixels mask : ℚ) * 100))

/-- The mask of claim C5: 500 background pixels, 50 pixels of class 2
(Tissue Fold) and 50 of class 1 (Normal Tissue). -/
def exampleMask : List Nat :=
  List.replicate 500 7 ++ List.replicate 50 2 ++ List.replicate 50 1

/-- Whether a step is a stage-1 subprocess invocation. -/
def isStage1 : Step → Bool := fun s => match s with | .stage1Run _ => true | _ => false

/-- Whether a step is a stage-2 subprocess invocation. -/
def isStage2 : Step → Bool := fun s => match s with | .stage2Run _ => true | _ => false

/-- Position of a step kind in the control flow of on_created: filter,
dedupe check, size polls, stage 1, stage 2, marking processed. -/
def Step.rank : Step → Nat
  | .extCheck => 0
  | .dedupeCheck => 1
  | .sizeRead _ => 2
  | .stage1Run _ => 3
  | .stage2Run _ => 4
  | .addProcessed => 5

/-! ## Helper lemmas -/

/-- When the polling loop declares stability at size s, either it broke on
its very first reading (only possible when the incoming file_size already
equals s), or the last two readings it consumed both returned s. -/
theorem waitLoop_stable_shape (reads : List (Option Nat)) :
    ∀ fs s cs rest, waitLoop fs reads = (.stable s, cs, rest) →
      (cs = [some s] ∧ fs = (s : Int)) ∨ ∃ pre, cs = pre ++ [some s, some s] := by
  induction reads with
  | nil =>
      intro fs s cs rest h
      simp [waitLoop] at h
  | cons r rs ih =>
      intro fs s cs rest h
      match r with
      | none => simp [waitLoop] at h
      | some current =>
          rw [waitLoop] at h
          by_cases hc : (current : Int) = fs
          · rw [if_pos hc] at h
            simp only [Prod.mk.injEq, WaitOutcome.stable.injEq] at h
            obtain ⟨h1, h2, h3⟩ := h
            subst h1
            exact Or.inl ⟨h2.symm, hc.symm⟩
          · rw [if_neg hc] at h
            simp only [Prod.mk.injEq] at h
            obtain ⟨h1, h2, h3⟩ := h
            rcases ih current s (waitLoop current rs).2.1 (waitLoop current rs).2.2
                (by rw [← h1]) with hl | hr
            · obtain ⟨hcs, hfs⟩ := hl
              refine Or.inr ⟨[], ?_⟩
              have : current = s := by exact_mod_cast hfs
              subst this
              rw [← h2, hcs]
              rfl
            · obtain ⟨pre, hpre⟩ := hr
              exact Or.inr ⟨some current :: pre, by rw [← h2, hpre]; rfl⟩

theorem stage1_invocations_eq (t : RunTrace) :
    t.stage1_invocations = t.steps.countP isStage1 := rfl

theorem stage2_invocations_eq (t : RunTrace) :
    t.stage2_invocations = t.steps.countP isStage2 := rfl

theorem countP_isStage1_map_sizeRead (l : List (Option Nat)) :
    (l.map Step.sizeRead).countP isStage1 = 0 := by
  induction l with
  | nil => rfl
  | cons a l ih => simp [List.countP_cons, isStage1, ih]

theorem countP_isStage2_map_sizeRead (l : List (Option Nat)) :
    (l.map Step.sizeRead).countP isStage2 = 0 := by
  induction l with
  | nil => rfl
  | cons a l ih => simp [List.countP_cons, isStage2, ih]

theorem pairwise_of_total {α : Type} (R : α → α → Prop) (hR : ∀ a b, R a b) :
    ∀ l : List α, l.Pairwise R := by
  intro l
  induction l with
  | nil => exact List.Pairwise.nil
  | cons a l ih => exact List.Pairwise.cons (fun b _ => hR a b) ih

/-- Any trace of the form filter-and-dedupe checks, then size polls, then
a tail of steps of rank at least 2 in order, is rank-monotone. -/
theorem pairwise_rank_trace (cs : List (Option Nat)) (tail : List Step)
    (htail : tail.Pairwise fun a b => a.rank ≤ b.rank)
    (hge : ∀ s ∈ tail, 2 ≤ s.rank) :
    (([Step.extCheck, Step.dedupeCheck] ++ cs.map Step.sizeRead) ++ tail).Pairwise
      fun a b => a.rank ≤ b.rank := by
  rw [List.pairwise_append]
  refine ⟨?_, htail, ?_⟩
  · rw [List.pairwise_append]
    refine ⟨by simp [Step.rank], ?_, ?_⟩
    · rw [List.pairwise_map]
      exact pairwise_of_total _ (fun a b => le_refl _) cs
    · intro a ha b hb
      obtain ⟨r, _, hr⟩ := List.mem_map.mp hb
      rcases List.mem_cons.mp ha with h | h
      · subst h; rw [← hr]; simp [Step.rank]
      · simp only [List.mem_singleton] at h
        subst h; rw [← hr]; simp [Step.rank]
  · intro a ha b hb
    have h2 := hge b hb
    rcases List.mem_append.mp ha with h | h
    · rcases List.mem_cons.mp h with h' | h'
      · subst h'; exact le_trans (by simp [Step.rank]) h2
      · simp only [List.mem_singleton] at h'
        subst h'; exact le_trans (by simp [Step.rank]) h2
    · obtain ⟨r, _, hr⟩ := List.mem_map.mp h
      rw [← hr]; simpa [Step.rank] using h2

/-- on_created never removes a path from processed_files. -/
theorem mem_processed_on_created (st : HandlerState) (env : EventEnv) (e : FsEvent)
    {p : Path} (hp : p ∈ st.processed_files) :
    p ∈ (on_created st env e).1.processed_files := by
  unfold on_created
  split
  · exact hp
  · split
    · exact hp
    · split
      · exact hp
      · split
        · exact hp
        · exact hp
        · split
          · exact hp
          · split
            · exact hp
            · exact List.mem_cons_of_mem _ hp

/-- No on_created call in a sequence removes a path from processed_files. -/
theorem mem_processed_runEvents (evs : List (EventEnv × FsEvent)) :
    ∀ st : HandlerState, ∀ p : Path, p ∈ st.processed_files →
      p ∈ (runEvents st evs).processed_files := by
  induction evs with
  | nil => intro st p hp; exact hp
  | cons ev rest ih =>
      intro st p hp
      obtain ⟨env, e⟩ := ev
      exact ih _ p (mem_processed_on_created st env e hp)

/-- What must have held when on_created returned through the success path:
the event was not a directory, the extension check passed, the path was not
yet processed, and the new state is the old one with the path added. -/
theorem on_created_completed_char (st : HandlerState) (env : EventEnv) (e : FsEvent)
    (st₁ : HandlerState) (tr : RunTrace)
    (h : on_created st env e = (st₁, tr, .completed)) :
    e.is_directory = false ∧ pyEndsWith (pyLower e.src_path) ".svs".data = true ∧
    e.src_path ∉ st.processed_files ∧
    st₁.processed_files = e.src_path :: st.processed_files := by
  unfold on_created at h
  split at h
  next hdir => simp at h
  next hdir =>
    split at h
    next hext => simp at h
    next hext =>
      split at h
      next hmem => simp at h
      next hmem =>
        split at h
        · simp at h
        · simp at h
        · split at h
          · simp at h
          · split at h
            · simp at h
            · simp only [Prod.mk.injEq] at h
              refine ⟨by simpa using hdir, by simpa using hext, hmem, ?_⟩
              rw [← h.1]

/-- on_created on a path that is already in processed_files: skip branch. -/
theorem on_created_already (st : HandlerState) (env : EventEnv) (e : FsEvent)
    (hdir : e.is_directory = false)
    (hext : pyEndsWith (pyLower e.src_path) ".svs".data = true)
    (hmem : e.src_path ∈ st.processed_files) :
    on_created st env e =
      (st, ⟨[.extCheck, .dedupeCheck], [.alreadySkipping]⟩, .alreadyProcessed) := by
  unfold on_created
  rw [if_neg (by simp [hdir]), if_neg (by simp [hext]), if_pos hmem]

/-- on_created on a fresh qualifying path whose stability wait succeeds
invokes stage 1 exactly once. -/
theorem on_created_stage1_once (st : HandlerState) (env : EventEnv) (e : FsEvent)
    (hdir : e.is_directory = false)
    (hext : pyEndsWith (pyLower e.src_path) ".svs".data = true)
    (hmem : e.src_path ∉ st.processed_files)
    (sz : Nat) (cs rest : List (Option Nat))
    (hw : awaitStable env.readings = (.stable sz, cs, rest)) :
    (on_created st env e).2.1.stage1_invocations = 1 := by
  unfold on_created
  rw [if_neg (by simp [hdir]), if_neg (by simp [hext]), if_neg hmem, hw]
  by_cases h1 : env.stage1_exit = 0
  · by_cases h2 : env.stage2_exit = 0
    · simp [h1, h2, stage1_invocations_eq, List.countP_append, List.countP_cons,
        countP_isStage1_map_sizeRead, isStage1]
    · simp [h1, h2, stage1_invocations_eq, List.countP_append, List.countP_cons,
        countP_isStage1_map_sizeRead, isStage1]
  · simp [h1, stage1_invocations_eq, List.countP_append, List.countP_cons,
      countP_isStage1_map_sizeRead, isStage1]

/-- What must have held when on_created returned through a stage-failure
path: state unchanged, the event was a qualifying fresh file. -/
theorem on_created_failed_char (st : HandlerState) (env : EventEnv) (e : FsEvent)
    (st₁ : HandlerState) (tr : RunTrace) (o : Outcome)
    (h : on_created st env e = (st₁, tr, o))
    (hfail : o = .stage1Failed ∨ o = .stage2Failed) :
    st₁ = st ∧ e.is_directory = false ∧
    pyEndsWith (pyLower e.src_path) ".svs".data = true ∧
    e.src_path ∉ st.processed_files := by
  unfold on_created at h
  split at h
  next hdir =>
    exfalso
    rcases hfail with hf | hf <;> rw [hf] at h <;> simp at h
  next hdir =>
    split at h
    next hext =>
      exfalso
      rcases hfail with hf | hf <;> rw [hf] at h <;> simp at h
    next hext =>
      split at h
      next hmem =>
        exfalso
        rcases hfail with hf | hf <;> rw [hf] at h <;> simp at h
      next hmem =>
        split at h
        · exfalso
          rcases hfail with hf | hf <;> rw [hf] at h <;> simp at h
        · exfalso
          rcases hfail with hf | hf <;> rw [hf] at h <;> simp at h
        · refine ⟨?_, by simpa using hdir, by simpa using hext, hmem⟩
          split at h
          · simp only [Prod.mk.injEq] at h
            exact h.1.symm
          · split at h
            · simp only [Prod.mk.injEq] at h
              exact h.1.symm
            · exfalso
              rcases hfail with hf | hf <;> rw [hf] at h <;> simp at h

/-! ## Claim theorems -/

/-- C1 (amended): the stability wait declares the file stable only after
two consecutive equal size readings — whenever it returns stable with size
s, at least two readings were consumed and the last two consumed readings
both returned s.  (The original claim's expectation on [10,10,20,20,20] is
refuted by c1_counterexample: the loop returns at the first plateau.) -/
theorem c1_stable_only_after_two_equal_readings (reads : List (Option Nat)) (s : Nat)
    (cs rest : List (Option Nat)) (h : awaitStable reads = (.stable s, cs, rest)) :
    2 ≤ cs.length ∧ cs.drop (cs.length - 2) = [some s, some s] := by
  rcases waitLoop_stable_shape reads (-1) s cs rest h with ⟨hcs, hfs⟩ | ⟨pre, hpre⟩
  · exfalso; omega
  · subst hpre
    refine ⟨by simp, ?_⟩
    have hl : (pre ++ [some s, some s]).length - 2 = pre.length := by simp
    rw [hl, List.drop_left]

/-- C1 counterexample: on the reading sequence [10, 10, 20, 20, 20] the
wait declares the file stable at size 10 after consuming only the first
two readings, with all three 20-readings still unread — it returns on the
transient plateau at 10, before anything confirms 20==20. -/
theorem c1_counterexample :
    awaitStable [some 10, some 10, some 20, some 20, some 20] =
      (.stable 10, [some 10, some 10], [some 20, some 20, some 20]) := by
  decide

/-- C1 witness: the amended theorem applied to the reading sequence
[5, 5]. -/
theorem c1_witness :
    2 ≤ ([some 5, some 5] : List (Option Nat)).length ∧
      ([some 5, some 5] : List (Option Nat)).drop
        (([some 5, some 5] : List (Option Nat)).length - 2) =
        [some (5 : Nat), some 5] :=
  c1_stable_only_after_two_equal_readings [some 5, some 5] 5 [some 5, some 5] []
    (by decide)

/-- C2: once on_created completes successfully for a path, any later
creation event for that same path — after any interleaved sequence of
other events — takes the already-processed skip branch: it invokes neither
stage and leaves the state unchanged. -/
theorem c2_completed_path_never_reprocessed
    (st st₁ : HandlerState) (env env' : EventEnv) (e e' : FsEvent) (tr : RunTrace)
    (evs : List (EventEnv × FsEvent))
    (h : on_created st env e = (st₁, tr, .completed))
    (hpath : e'.src_path = e.src_path) (hdir : e'.is_directory = false) :
    on_created (runEvents st₁ evs) env' e' =
      (runEvents st₁ evs, ⟨[.extCheck, .dedupeCheck], [.alreadySkipping]⟩,
        .alreadyProcessed) ∧
    (on_created (runEvents st₁ evs) env' e').2.1.stage1_invocations = 0 ∧
    (on_created (runEvents st₁ evs) env' e').2.1.stage2_invocations = 0 := by
  obtain ⟨hd, hext, hmem, hst⟩ := on_created_completed_char st env e st₁ tr h
  have hmem₁ : e'.src_path ∈ st₁.processed_files := by
    rw [hpath, hst]; exact List.mem_cons_self _ _
  have hmem₂ : e'.src_path ∈ (runEvents st₁ evs).processed_files :=
    mem_processed_runEvents evs st₁ _ hmem₁
  have hres := on_created_already (runEvents st₁ evs) env' e' hdir
    (by rw [hpath]; exact hext) hmem₂
  exact ⟨hres, by rw [hres]; rfl, by rw [hres]; rfl⟩

/-- C2 witness: slideA.svs stabilises at 1000 bytes and both stages exit
zero; a second creation event for the same path skips both stages. -/
theorem c2_witness :
    on_created (runEvents ⟨["slideA.svs".data]⟩ []) ⟨[some 1, some 1], 0, 0⟩
        ⟨false, "slideA.svs".data⟩ =
      (runEvents ⟨["slideA.svs".data]⟩ [],
        ⟨[.extCheck, .dedupeCheck], [.alreadySkipping]⟩, .alreadyProcessed) ∧
    (on_created (runEvents ⟨["slideA.svs".data]⟩ []) ⟨[some 1, some 1], 0, 0⟩
        ⟨false, "slideA.svs".data⟩).2.1.stage1_invocations = 0 ∧
    (on_created (runEvents ⟨["slideA.svs".data]⟩ []) ⟨[some 1, some 1], 0, 0⟩
        ⟨false, "slideA.svs".data⟩).2.1.stage2_invocations = 0 :=
  c2_completed_path_never_reprocessed ⟨[]⟩ ⟨["slideA.svs".data]⟩
    ⟨[some 1000, some 1000], 0, 0⟩ ⟨[some 1, some 1], 0, 0⟩
    ⟨false, "slideA.svs".data⟩ ⟨false, "slideA.svs".data⟩
    ⟨[Step.extCheck, Step.dedupeCheck, Step.sizeRead (some 1000),
        Step.sizeRead (some 1000), Step.stage1Run 0, Step.stage2Run 0,
        Step.addProcessed],
      [LogMsg.newFileDetected, LogMsg.runningTissue, LogMsg.runningArtifact,
        LogMsg.successfullyProcessed]⟩
    [] (by decide) rfl rfl

/-- C3: if the stage-1 subprocess would exit non-zero, no on_created call
records a stage-2 invocation, the outcome is never a stage-2 failure, and
whenever stage 1 actually ran the outcome is the stage-1 failure path. -/
theorem c3_stage1_failure_blocks_stage2 (st : HandlerState) (env : EventEnv)
    (e : FsEvent) (h : env.stage1_exit ≠ 0) :
    (on_created st env e).2.1.stage2_invocations = 0 ∧
    (on_created st env e).2.2 ≠ .stage2Failed ∧
    ((on_created st env e).2.1.stage1_invocations ≠ 0 →
      (on_created st env e).2.2 = .stage1Failed) := by
  unfold on_created
  split
  · simp [stage1_invocations_eq, stage2_invocations_eq]
  · split
    · simp [stage1_invocations_eq, stage2_invocations_eq, List.countP_cons, isStage1,
        isStage2]
    · split
      · simp [stage1_invocations_eq, stage2_invocations_eq, List.countP_cons, isStage1,
          isStage2]
      · split
        · simp [stage1_invocations_eq, stage2_invocations_eq, List.countP_append,
            List.countP_cons, countP_isStage1_map_sizeRead, countP_isStage2_map_sizeRead,
            isStage1, isStage2]
        · simp [stage1_invocations_eq, stage2_invocations_eq, List.countP_append,
            List.countP_cons, countP_isStage1_map_sizeRead, countP_isStage2_map_sizeRead,
            isStage1, isStage2]
        · simp [h, stage1_invocations_eq, stage2_invocations_eq, List.countP_append,
            List.countP_cons, countP_isStage1_map_sizeRead, countP_isStage2_map_sizeRead,
            isStage1, isStage2]

/-- C3 witness: with a stage-1 stub exiting 1 on a fresh stable file,
stage 2 is not invoked and the run ends in the stage-1 failure path. -/
theorem c3_witness :
    (2 : Nat) ≠ 0 ∧
    (on_created ⟨[]⟩ ⟨[some 6, some 6], 2, 0⟩ ⟨false, "e.svs".data⟩).2.1.stage2_invocations = 0 ∧
    (on_created ⟨[]⟩ ⟨[some 6, some 6], 2, 0⟩ ⟨false, "e.svs".data⟩).2.2 ≠ .stage2Failed ∧
    ((on_created ⟨[]⟩ ⟨[some 6, some 6], 2, 0⟩ ⟨false, "e.svs".data⟩).2.1.stage1_invocations ≠ 0 →
      (on_created ⟨[]⟩ ⟨[some 6, some 6], 2, 0⟩ ⟨false, "e.svs".data⟩).2.2 = .stage1Failed) :=
  ⟨by decide, c3_stage1_failure_blocks_stage2 ⟨[]⟩ ⟨[some 6, some 6], 2, 0⟩
    ⟨false, "e.svs".data⟩ (by decide)⟩

/-- C4: a creation event that ends in a stage failure leaves the processed
set exactly as it was, and a subsequent creation event for the same path
whose stability wait succeeds passes the dedupe check and invokes stage 1
again. -/
theorem c4_stage_failure_allows_retry (st st₁ : HandlerState) (env env' : EventEnv)
    (e : FsEvent) (tr : RunTrace) (o : Outcome)
    (h : on_created st env e = (st₁, tr, o))
    (hfail : o = .stage1Failed ∨ o = .stage2Failed)
    (sz : Nat) (cs rest : List (Option Nat))
    (hw : awaitStable env'.readings = (.stable sz, cs, rest)) :
    st₁ = st ∧ (on_created st env' e).2.1.stage1_invocations = 1 := by
  obtain ⟨hst, hdir, hext, hmem⟩ := on_created_failed_char st env e st₁ tr o h hfail
  exact ⟨hst, on_created_stage1_once st env' e hdir hext hmem sz cs rest hw⟩

/-- C4 witness: stage 1 exits 1 for a.svs, the state is unchanged, and a
retry event whose size stabilises invokes stage 1 once more. -/
theorem c4_witness :
    (⟨[]⟩ : HandlerState) = ⟨[]⟩ ∧
    (on_created ⟨[]⟩ ⟨[some 9, some 9], 0, 0⟩ ⟨false, "a.svs".data⟩).2.1.stage1_invocations = 1 :=
  c4_stage_failure_allows_retry ⟨[]⟩ ⟨[]⟩ ⟨[some 7, some 7], 1, 0⟩
    ⟨[some 9, some 9], 0, 0⟩ ⟨false, "a.svs".data⟩
    ⟨[Step.extCheck, Step.dedupeCheck, Step.sizeRead (some 7), Step.sizeRead (some 7),
        Step.stage1Run 1],
      [LogMsg.newFileDetected, LogMsg.runningTissue, LogMsg.errorProcessing]⟩
    .stage1Failed (by decide) (Or.inl rfl) 9 [some 9, some 9] [] (by decide)

/-- C7 counterexample: for a path already in processed_files and a size
reader that would fail at once, on_created returns through the skip branch
having performed the dedupe membership check but not a single size poll —
the dedupe check runs before the stability wait, not after it. -/
theorem c7_counterexample :
    on_created ⟨["/in/a.svs".data]⟩ ⟨[none], 0, 0⟩ ⟨false, "/in/a.svs".data⟩ =
      (⟨["/in/a.svs".data]⟩, ⟨[.extCheck, .dedupeCheck], [.alreadySkipping]⟩,
        .alreadyProcessed) ∧
    Step.dedupeCheck ∈ [Step.extCheck, Step.dedupeCheck] ∧
    Step.sizeRead none ∉ [Step.extCheck, Step.dedupeCheck] := by
  decide

/-- C7 (amended): the per-file steps of on_created always occur in the
order extension filter, then dedupe check against the processed set, then
stability wait, then stage 1, then stage 2, then marking the path
processed — the recorded step ranks are monotone along every trace.  (The
dedupe check comes before the stability wait, not after it.) -/
theorem c7_step_order (st : HandlerState) (env : EventEnv) (e : FsEvent) :
    ((on_created st env e).2.1.steps).Pairwise fun a b => a.rank ≤ b.rank := by
  unfold on_created
  split
  · simp
  · split
    · simp
    · split
      · simp [Step.rank]
      · split
        · simpa using pairwise_rank_trace _ [] List.Pairwise.nil (by simp)
        · simpa using pairwise_rank_trace _ [] List.Pairwise.nil (by simp)
        · split
          · exact pairwise_rank_trace _ [Step.stage1Run env.stage1_exit]
              (by simp) (by simp [Step.rank])
          · split
            · exact pairwise_rank_trace _ [Step.stage1Run 0, Step.stage2Run env.stage2_exit]
                (by simp [Step.rank]) (by simp [Step.rank])
            · exact pairwise_rank_trace _ [Step.stage1Run 0, Step.stage2Run 0, Step.addProcessed]
                (by simp [Step.rank]) (by simp [Step.rank])

/-- C8: if a size reading fails during the stability wait of a fresh
qualifying file, processing aborts before any stage runs, the path is not
added to the processed set, the handler returns (through the OSError
branch), and a later creation event for the same path whose wait succeeds
invokes stage 1. -/
theorem c8_unavailable_aborts_before_stages (st : HandlerState) (env env' : EventEnv)
    (e : FsEvent) (hdir : e.is_directory = false)
    (hext : pyEndsWith (pyLower e.src_path) ".svs".data = true)
    (hmem : e.src_path ∉ st.processed_files)
    (cs rest : List (Option Nat))
    (hw : awaitStable env.readings = (.unavailable, cs, rest))
    (sz : Nat) (cs' rest' : List (Option Nat))
    (hw' : awaitStable env'.readings = (.stable sz, cs', rest')) :
    (on_created st env e).1 = st ∧
    (on_created st env e).2.1.stage1_invocations = 0 ∧
    (on_created st env e).2.1.stage2_invocations = 0 ∧
    (on_created st env e).2.2 = .fileUnavailable ∧
    (on_created st env' e).2.1.stage1_invocations = 1 := by
  have hres : on_created st env e =
      (st, ⟨[Step.extCheck, Step.dedupeCheck] ++ cs.map Step.sizeRead,
        [.newFileDetected, .errorAccessing]⟩, .fileUnavailable) := by
    unfold on_created
    rw [if_neg (by simp [hdir]), if_neg (by simp [hext]), if_neg hmem, hw]
  refine ⟨by rw [hres], ?_, ?_, by rw [hres],
    on_created_stage1_once st env' e hdir hext hmem sz cs' rest' hw'⟩
  · rw [hres]
    simp [stage1_invocations_eq, List.countP_append, List.countP_cons,
      countP_isStage1_map_sizeRead, isStage1]
  · rw [hres]
    simp [stage2_invocations_eq, List.countP_append, List.countP_cons,
      countP_isStage2_map_sizeRead, isStage2]

/-- C8 witness: c.svs becomes unreadable at the second poll; no stage runs
and the state is unchanged; a retry with stable readings runs stage 1. -/
theorem c8_witness :
    (on_created ⟨[]⟩ ⟨[some 3, none], 0, 0⟩ ⟨false, "c.svs".data⟩).1 = ⟨[]⟩ ∧
    (on_created ⟨[]⟩ ⟨[some 3, none], 0, 0⟩ ⟨false, "c.svs".data⟩).2.1.stage1_invocations = 0 ∧
    (on_created ⟨[]⟩ ⟨[some 3, none], 0, 0⟩ ⟨false, "c.svs".data⟩).2.1.stage2_invocations = 0 ∧
    (on_created ⟨[]⟩ ⟨[some 3, none], 0, 0⟩ ⟨false, "c.svs".data⟩).2.2 = .fileUnavailable ∧
    (on_created ⟨[]⟩ ⟨[some 4, some 4], 0, 0⟩ ⟨false, "c.svs".data⟩).2.1.stage1_invocations = 1 :=
  c8_unavailable_aborts_before_stages ⟨[]⟩ ⟨[some 3, none], 0, 0⟩
    ⟨[some 4, some 4], 0, 0⟩ ⟨false, "c.svs".data⟩ rfl (by decide) (by decide)
    [some 3, none] [] (by decide) 4 [some 4, some 4] [] (by decide)

/-- C9: the processed set only grows across an on_created call, and any
path newly present after the call is the event's own path, added in the
run where both stages were invoked and both exited zero (the completed
outcome) — so failure paths release their claim by never inserting. -/
theorem c9_processed_set_monotone_success_only (st : HandlerState) (env : EventEnv)
    (e : FsEvent) :
    (∀ p, p ∈ st.processed_files → p ∈ (on_created st env e).1.processed_files) ∧
    (∀ p, p ∈ (on_created st env e).1.processed_files →
      p ∈ st.processed_files ∨
        (p = e.src_path ∧ env.stage1_exit = 0 ∧ env.stage2_exit = 0 ∧
          (on_created st env e).2.1.stage1_invocations = 1 ∧
          (on_created st env e).2.1.stage2_invocations = 1 ∧
          (on_created st env e).2.2 = .completed)) := by
  refine ⟨fun p hp => mem_processed_on_created st env e hp, ?_⟩
  unfold on_created
  split
  · exact fun p hp => Or.inl hp
  · split
    · exact fun p hp => Or.inl hp
    · split
      · exact fun p hp => Or.inl hp
      · split
        · exact fun p hp => Or.inl hp
        · exact fun p hp => Or.inl hp
        · split
          next h1 => exact fun p hp => Or.inl hp
          next h1 =>
            split
            next h2 => exact fun p hp => Or.inl hp
            next h2 =>
              intro p hp
              rcases List.mem_cons.mp hp with hpe | hp'
              · subst hpe
                refine Or.inr ⟨rfl, by simpa using h1, by simpa using h2, ?_, ?_, rfl⟩
                · simp [stage1_invocations_eq, List.countP_append, List.countP_cons,
                    countP_isStage1_map_sizeRead, isStage1]
                · simp [stage2_invocations_eq, List.countP_append, List.countP_cons,
                    countP_isStage2_map_sizeRead, isStage2]
              · exact Or.inl hp'

/-- C9 witness: a path already in the set stays in it across a call. -/
theorem c9_witness :
    "x.svs".data ∈ (on_created ⟨["x.svs".data]⟩ ⟨[], 0, 0⟩
      ⟨true, "y".data⟩).1.processed_files :=
  (c9_processed_set_monotone_success_only ⟨["x.svs".data]⟩ ⟨[], 0, 0⟩
    ⟨true, "y".data⟩).1 "x.svs".data (by decide)

/-- C10: the event filter is exactly "not a directory event and the
lowercased path ends in .svs": directory events and wrong-extension events
return at once with no state change, no recorded action beyond the check,
and no log entry; events passing the filter never take those two return
paths. -/
theorem c10_extension_filter_case_insensitive (st : HandlerState) (env : EventEnv)
    (e : FsEvent) :
    (e.is_directory = true → on_created st env e = (st, ⟨[], []⟩, .directoryEvent)) ∧
    (e.is_directory = false → pyEndsWith (pyLower e.src_path) ".svs".data = false →
      on_created st env e = (st, ⟨[.extCheck], []⟩, .wrongExtension)) ∧
    (e.is_directory = false → pyEndsWith (pyLower e.src_path) ".svs".data = true →
      (on_created st env e).2.2 ≠ .directoryEvent ∧
      (on_created st env e).2.2 ≠ .wrongExtension) := by
  refine ⟨fun hdir => ?_, fun hdir hext => ?_, fun hdir hext => ?_⟩
  · unfold on_created; rw [if_pos hdir]
  · unfold on_created; rw [if_neg (by simp [hdir]), if_pos (by simp [hext])]
  · unfold on_created
    rw [if_neg (by simp [hdir]), if_neg (by simp [hext])]
    split
    · simp
    · split
      · simp
      · simp
      · split
        · simp
        · split
          · simp
          · simp

/-- C10 witness: an uppercase .SVS creation event passes the filter. -/
theorem c10_witness :
    (on_created ⟨[]⟩ ⟨[some 8, some 8], 0, 0⟩ ⟨false, "b.SVS".data⟩).2.2 ≠ .directoryEvent ∧
    (on_created ⟨[]⟩ ⟨[some 8, some 8], 0, 0⟩ ⟨false, "b.SVS".data⟩).2.2 ≠ .wrongExtension :=
  (c10_extension_filter_case_insensitive ⟨[]⟩ ⟨[some 8, some 8], 0, 0⟩
    ⟨false, "b.SVS".data⟩).2.2 rfl (by decide)

/-- C5: on a mask with at least one non-background pixel, analyze_mask
reports for each class c in 1..6 the value
round(count(mask == c) / count(mask != 7) * 100, 2). -/
theorem c5_per_class_percentage (mask : List Nat) (h : total_tissue_pixels mask ≠ 0)
    (c : Nat) (hc : c ∈ artifact_class_indices) :
    (analyze_mask mask).lookup c =
      some (round2 ((countClass mask c : ℚ) / (total_tissue_pixels mask : ℚ) * 100)) := by
  fin_cases hc <;> simp [analyze_mask, h, artifact_class_indices, List.lookup]

set_option maxRecDepth 10000 in
/-- C5 witness: on the 600-pixel mask with 500 background pixels and 50
class-2 pixels out of 100 non-background ones, class 2 reports 50.0. -/
theorem c5_witness :
    total_tissue_pixels exampleMask ≠ 0 ∧
    (analyze_mask exampleMask).lookup 2 =
      some (round2 ((countClass exampleMask 2 : ℚ) /
        (total_tissue_pixels exampleMask : ℚ) * 100)) ∧
    (analyze_mask exampleMask).lookup 2 = some 50 := by
  refine ⟨by decide, c5_per_class_percentage exampleMask (by decide) 2 (by decide), ?_⟩
  rw [c5_per_class_percentage exampleMask (by decide) 2 (by decide)]
  have h2 : countClass exampleMask 2 = 50 := by decide
  have ht : total_tissue_pixels exampleMask = 100 := by decide
  rw [h2, ht]
  norm_num [round2]

/-- C6: on a mask whose pixels are all class 7, the non-background pixel
count is zero and analyze_mask takes the guarded early-return branch,
reporting 0.0 for all six non-background classes without dividing. -/
theorem c6_all_background_reports_zero (mask : List Nat) (h : ∀ p ∈ mask, p = 7) :
    total_tissue_pixels mask = 0 ∧
    analyze_mask mask = artifact_class_indices.map fun i => (i, (0 : ℚ)) := by
  have hf : mask.filter (fun p => p != 7) = [] := by
    rw [List.filter_eq_nil_iff]
    intro a ha
    simp [h a ha]
  have ht : total_tissue_pixels mask = 0 := by simp [total_tissue_pixels, hf]
  exact ⟨ht, by simp [analyze_mask, ht]⟩

/-- C6 witness: a 4-pixel all-background mask reports six zeros. -/
theorem c6_witness :
    total_tissue_pixels (List.replicate 4 7) = 0 ∧
    analyze_mask (List.replicate 4 7) = artifact_class_indices.map fun i => (i, (0 : ℚ)) :=
  c6_all_background_reports_zero (List.replicate 4 7) (by decide)

end GrandQC
